import Mathlib

/-!
Verification of the command interpreter of `tools/hbcdump/hbcdump.cpp`
(the Hermes bytecode dump tool).

The embedding models `executeCommand`, `printHelp`, `findAndRemoveOne`,
the `DisassemblerOptionsHolder` RAII guard, and the startup-command /
interactive parts of `enterCommandLoop` as pure functions.  Mutable
state (the disassembler's option mask) is threaded explicitly as a
`Nat` bitmask; everything the program writes, and every call it makes
into the external disassembly/statistics engines, is recorded as an
ordered list of `Event`s.  The engines themselves (disassembly
rendering, profile statistics, string tables, virtual-offset
resolution) are external collaborators, so an engine call is modelled
as an opaque `Event.engine` record of the call and its arguments; the
two engine queries whose results steer control flow
(`getFunctionCount`, `getFunctionFromVirtualOffset`) are parameters of
the `Engine` structure.
-/

set_option maxHeartbeats 1000000

namespace HbcDump

/-- The three distinct output channels of the program: `os` is the
session's active output stream (the `--out` file, or standard output
when `--out` is absent), `stdout` is `llvh::outs()` which `printHelp`
writes to unconditionally, and `stderr` is `llvh::errs()`. -/
inductive OutStream
  | os
  | stdout
  | stderr
  deriving DecidableEq

/-- A call into one of the external engines (ProfileAnalyzer /
BytecodeDisassembler).  The two disassembler calls record the option
mask in force at the moment of the call. -/
inductive EngineCall
  | dumpUsedFunctionIDs
  | dumpFunctionStats
  | dumpFunctionBasicBlockStat (funcId : Nat)
  | dumpInstructionStats
  | disassemble (options : Nat)
  | disassembleFunction (options : Nat) (funcId : Nat)
  | dumpString (stringId : Nat)
  | dumpFileName (filenameId : Nat)
  | dumpAllFunctionInfo
  | dumpFunctionInfo (funcId : Nat)
  | dumpIo
  | dumpSummary
  | dumpBasicBlockStats
  | dumpEpilogue
  deriving DecidableEq

/-- One observable step of the program: a raw text write to one of the
output channels, or a call into an external engine. -/
inductive Event
  | write (stream : OutStream) (text : String)
  | engine (call : EngineCall)
  deriving DecidableEq

/-- The engine queries whose results the command interpreter branches
on: `BytecodeDisassembler::getFunctionCount()` and
`ProfileAnalyzer::getFunctionFromVirtualOffset`. -/
structure Engine where
  functionCount : Nat
  functionFromVirtualOffset : Nat → Option Nat

/-- Modelled from the spec: the `DisassemblyOptions` bit flags of
`BytecodeDisassembler.h` are not under src/; the spec describes them as
"a set of independent boolean toggles ... represented as a composable
bitmask", so each toggle is given a distinct bit. -/
def DisassemblyOptions.None : Nat := 0

def DisassemblyOptions.IncludeSource : Nat := 1

def DisassemblyOptions.IncludeFunctionIds : Nat := 2

def DisassemblyOptions.IncludeVirtualOffsets : Nat := 4

def DisassemblyOptions.Pretty : Nat := 8

def DisassemblyOptions.Objdump : Nat := 16

/-- The `DisassemblyFormat` command-line enum. -/
inductive DisassemblyFormat
  | Raw
  | Pretty
  | Objdump

/-- The option mask `enterCommandLoop` sets up before any command runs:
source info and function ids, plus the flag matching the selected
output format. -/
def baseOptions (fmt : DisassemblyFormat) : Nat :=
  match fmt with
  | DisassemblyFormat.Raw =>
      DisassemblyOptions.IncludeSource ||| DisassemblyOptions.IncludeFunctionIds
  | DisassemblyFormat.Pretty =>
      (DisassemblyOptions.IncludeSource ||| DisassemblyOptions.IncludeFunctionIds) |||
        DisassemblyOptions.Pretty
  | DisassemblyFormat.Objdump =>
      (DisassemblyOptions.IncludeSource ||| DisassemblyOptions.IncludeFunctionIds) |||
        DisassemblyOptions.Objdump

/-- Splitting helper for `tokenize`: split a character list at every
space, keeping empty tokens (consecutive separators are not
collapsed). -/
def splitAux : List Char → List Char → List String
  | [], acc => [String.mk acc.reverse]
  | c :: rest, acc =>
    if c = ' ' then String.mk acc.reverse :: splitAux rest []
    else splitAux rest (c :: acc)

/-- Modelled from the spec: `llvh::StringRef::split(commandTokens, ' ')`
is llvh library code that is not under src/.  The spec says: "split
strictly on the space character; does not collapse consecutive
delimiters specially beyond producing tokens (empty line → empty
sequence)". -/
def tokenize (line : String) : List String :=
  if line = "" then [] else splitAux line.data []

/-- The numeric value of a character the way
`llvh::consumeUnsignedInteger` reads digits: `0`-`9`, then letters as
10..35; any other character gets a sentinel value larger than every
radix. -/
def digitVal (c : Char) : Nat :=
  if '0' ≤ c ∧ c ≤ '9' then c.toNat - '0'.toNat
  else if 'a' ≤ c ∧ c ≤ 'z' then c.toNat - 'a'.toNat + 10
  else if 'A' ≤ c ∧ c ≤ 'Z' then c.toNat - 'A'.toNat + 10
  else 99

/-- Radix auto-detection for a radix argument of 0: strip `0x`/`0X`
(hex), `0b`/`0B` (binary), `0o` (octal), or a leading `0` followed by a
digit (octal); otherwise decimal. -/
def autoSenseRadix : List Char → Nat × List Char
  | '0' :: 'x' :: rest => (16, rest)
  | '0' :: 'X' :: rest => (16, rest)
  | '0' :: 'b' :: rest => (2, rest)
  | '0' :: 'B' :: rest => (2, rest)
  | '0' :: 'o' :: rest => (8, rest)
  | '0' :: c :: rest => if c.isDigit then (8, c :: rest) else (10, '0' :: c :: rest)
  | s => (10, s)

/-- Accumulate the digits; fail on the first character that is not a
digit of the radix. -/
def parseDigits (radix : Nat) : List Char → Nat → Option Nat
  | [], acc => some acc
  | c :: rest, acc =>
    if digitVal c < radix then parseDigits radix rest (acc * radix + digitVal c)
    else none

/-- Modelled from the spec: `llvh::StringRef::getAsInteger(0, x)` for a
`uint32_t` destination is llvh library code not under src/.  The spec
says a numeric argument must "parse as a non-negative integer in the
token's given radix"; the radix is auto-sensed from the usual
`0x`/`0b`/`0o`/leading-zero prefixes, the whole token must consist of
digits of that radix (an empty digit string fails), and the value must
fit in 32 bits. -/
def parseU32 (s : String) : Option Nat :=
  match autoSenseRadix s.data with
  | (radix, digits) =>
    if digits.isEmpty then none
    else
      match parseDigits radix digits 0 with
      | none => none
      | some v => if v < 2 ^ 32 then some v else none

/-- `findAndRemoveOne`: find the first instance of a value in a
container and remove it; the first component tells whether it was
found. -/
def findAndRemoveOne : List String → String → Bool × List String
  | [], _ => (false, [])
  | x :: xs, needle =>
    if x = needle then (true, xs)
    else ((findAndRemoveOne xs needle).1, x :: (findAndRemoveOne xs needle).2)

/-- The static help-text table of `printHelp`, keyed by canonical
command name.  (The C++ table is an `std::unordered_map`, modelled here
as an association list in the order of the source listing.) -/
def commandToHelpText : List (String × String) :=
  [("function",
    "'function': Compute the runtime instruction frequency for each function and display in desceding order.Each function name is displayed together with its source code line number.\n\n'function <FUNC_ID>': Dump basic block stats for function with id <FUNC_ID>.\n\n'function -used': List all invoked function IDs, one per line.\n\nUSAGE: function [<FUNC_ID> | -used]\n       fun [<FUNC_ID> | -used]\n"),
   ("instruction",
    "Computes the runtime instruction frequency for each instructionand displays it in descending order.\n\nUSAGE: instruction\n       inst\n"),
   ("disassemble",
    "'disassemble': Display bytecode disassembled output of whole binary.\n'disassemble <FUNC_ID>': Display bytecode disassembled output of function with id <FUNC_ID>.\nAdd the '-offsets' flag to show virtual offsets for all instructions.\n\nUSAGE: disassemble <FUNC_ID> [-offsets]\n       dis <FUNC_ID> [-offsets]\n"),
   ("summary",
    "Display overall summary information.\n\nUSAGE: summary\n"),
   ("io",
    "Visualize function page I/O access working setin basic block profile trace.\n\nUSAGE: io\n"),
   ("block",
    "Display top hot basic blocks in sorted order.\n\nUSAGE: block\n"),
   ("at-virtual",
    "Display information about the function at a given virtual offset.\n\nUSAGE: at-virtual <OFFSET>\n"),
   ("help",
    "Help instructions for hbcdump tool commands.\n\nUSAGE: help <COMMAND>\n       h <COMMAND>\n"),
   ("function-info",
    "Display info about a specific function, or all functions\n\nUSAGE: function-info [<FUNC_ID>]\nNOTE: Virtual offset is the offset from the beginning of the segment\n"),
   ("string",
    "Display string for ID\n\nUSAGE: string <STRING_ID>\n"),
   ("filename",
    "Display file name for ID\n\nUSAGE: filename <FILENAME_ID>\n"),
   ("epilogue",
    "Dump the epilogue.\n\nUSAGE: epilogue\n")]

/-- The banner `printHelp` prints before listing every command name. -/
def topLevelHelpText : String :=
  "These commands are defined internally. Type `help' to see this list.\nType `help name' to find out more about the function `name'.\n\n"

/-- The "list everything" arm of `printHelp`: the banner followed by
each registered command name.  All of it goes to `llvh::outs()`. -/
def printHelpAll : List Event :=
  Event.write OutStream.stdout topLevelHelpText ::
    commandToHelpText.map (fun p => Event.write OutStream.stdout (p.1 ++ "\n"))

/-- `printHelp`: with a non-empty command name, print that command's
usage text, or `Invalid command: <name>` when the name is not in the
table; with no name (or an empty name), print the banner and every
command name.  Every write goes to `llvh::outs()`, not to the stream
`executeCommand` received. -/
def printHelp (command : Option String) : List Event :=
  match command with
  | some c =>
    if c = "" then printHelpAll
    else
      match commandToHelpText.find? (fun p => p.1 == c) with
      | none => [Event.write OutStream.stdout ("Invalid command: " ++ c ++ "\n")]
      | some p => [Event.write OutStream.stdout p.2]
  | none => printHelpAll

/-- The `function`/`fun` block of `executeCommand`: if a `-used` flag
is found (and removed) anywhere in the token list, list the used
function IDs with no further arity check; otherwise one remaining
token means the per-function stats, two means basic-block stats for a
parsed function id, and anything else renders the usage text. -/
def functionCmd (opts : Nat) (command : String) (commandTokens : List String) :
    Bool × Nat × List Event :=
  if (findAndRemoveOne commandTokens "-used").1 then
    (false, opts,
      [Event.engine EngineCall.dumpUsedFunctionIDs, Event.write OutStream.os "\n"])
  else
    match (findAndRemoveOne commandTokens "-used").2 with
    | [_] =>
      (false, opts,
        [Event.engine EngineCall.dumpFunctionStats, Event.write OutStream.os "\n"])
    | [_, arg] =>
      match parseU32 arg with
      | none =>
        (false, opts,
          [Event.write OutStream.os "Error: cannot parse func_id as integer.\n"])
      | some funcId =>
        (false, opts,
          [Event.engine (EngineCall.dumpFunctionBasicBlockStat funcId),
           Event.write OutStream.os "\n"])
    | _ => (false, opts, printHelp (some command))

/-- The `instruction`/`inst` block of `executeCommand`. -/
def instructionCmd (opts : Nat) (command : String) (commandTokens : List String) :
    Bool × Nat × List Event :=
  match commandTokens with
  | [_] =>
    (false, opts,
      [Event.engine EngineCall.dumpInstructionStats, Event.write OutStream.os "\n"])
  | _ => (false, opts, printHelp (some command))

/-- The `disassemble`/`dis` block of `executeCommand`.  The
`DisassemblerOptionsHolder` saves the current mask, sets
`getOptions() | localOptions` for the duration of the block, and its
destructor restores the saved mask on every exit path, so the second
component is the saved mask in every branch while the disassembler
calls record the overridden mask. -/
def disassembleCmd (eng : Engine) (opts : Nat) (command : String)
    (commandTokens : List String) : Bool × Nat × List Event :=
  match
    (if (findAndRemoveOne commandTokens "-offsets").1 then
      DisassemblyOptions.IncludeVirtualOffsets
    else DisassemblyOptions.None) with
  | localOptions =>
    match opts, opts ||| localOptions with
    | savedOptions, newOptions =>
      match (findAndRemoveOne commandTokens "-offsets").2 with
      | [_] =>
        (false, savedOptions,
          [Event.engine (EngineCall.disassemble newOptions),
           Event.write OutStream.os "\n"])
      | [_, arg] =>
        match parseU32 arg with
        | none =>
          (false, savedOptions,
            [Event.write OutStream.os "Error: cannot parse func_id as integer.\n"])
        | some funcId =>
          if eng.functionCount ≤ funcId then
            (false, savedOptions,
              [Event.write OutStream.os
                ("Error: no function with id: " ++ toString funcId ++ " exists.\n")])
          else
            (false, savedOptions,
              [Event.engine (EngineCall.disassembleFunction newOptions funcId),
               Event.write OutStream.os "\n"])
      | _ => (false, savedOptions, printHelp (some command))

/-- The `string`/`str` block of `executeCommand`. -/
def stringCmd (opts : Nat) (command : String) (commandTokens : List String) :
    Bool × Nat × List Event :=
  match commandTokens with
  | [_, arg] =>
    match parseU32 arg with
    | none =>
      (false, opts,
        [Event.write OutStream.os "Error: cannot parse string_id as integer.\n"])
    | some stringId =>
      (false, opts,
        [Event.engine (EngineCall.dumpString stringId), Event.write OutStream.os "\n"])
  | _ => (false, opts, printHelp (some command))

/-- The `filename` block of `executeCommand`. -/
def filenameCmd (opts : Nat) (command : String) (commandTokens : List String) :
    Bool × Nat × List Event :=
  match commandTokens with
  | [_, arg] =>
    match parseU32 arg with
    | none =>
      (false, opts,
        [Event.write OutStream.os "Error: cannot parse filename_id as integer.\n"])
    | some filenameId =>
      (false, opts,
        [Event.engine (EngineCall.dumpFileName filenameId),
         Event.write OutStream.os "\n"])
  | _ => (false, opts, printHelp (some command))

/-- The `function-info` block of `executeCommand`. -/
def functionInfoCmd (opts : Nat) (command : String) (commandTokens : List String) :
    Bool × Nat × List Event :=
  match commandTokens with
  | [_] =>
    (false, opts,
      [Event.engine EngineCall.dumpAllFunctionInfo, Event.write OutStream.os "\n"])
  | [_, arg] =>
    match parseU32 arg with
    | none =>
      (false, opts,
        [Event.write OutStream.os "Error: cannot parse func_id as integer.\n"])
    | some funcId =>
      (false, opts,
        [Event.engine (EngineCall.dumpFunctionInfo funcId),
         Event.write OutStream.os "\n"])
  | _ => (false, opts, printHelp (some command))

/-- The `at_virtual`/`at-virtual` block of `executeCommand`: parse the
offset, resolve it to a containing function, and either dump that
function's info or report the offset as invalid.  Note the
invalid-offset message does not return early, so it still reaches the
trailing blank-line write. -/
def atVirtualCmd (eng : Engine) (opts : Nat) (command : String)
    (commandTokens : List String) : Bool × Nat × List Event :=
  match commandTokens with
  | [_, arg] =>
    match parseU32 arg with
    | none =>
      (false, opts,
        [Event.write OutStream.os "Error: cannot parse virtualOffset as integer.\n"])
    | some virtualOffset =>
      match eng.functionFromVirtualOffset virtualOffset with
      | some funcId =>
        (false, opts,
          [Event.engine (EngineCall.dumpFunctionInfo funcId),
           Event.write OutStream.os "\n"])
      | none =>
        (false, opts,
          [Event.write OutStream.os
            ("Virtual offset " ++ toString virtualOffset ++ " is invalid.\n"),
           Event.write OutStream.os "\n"])
  | _ => (false, opts, printHelp (some command))

/-- The `help`/`h` block of `executeCommand`: with exactly one
argument print that command's help, otherwise print the full listing;
it returns before the trailing blank-line write. -/
def helpCmd (opts : Nat) (commandTokens : List String) : Bool × Nat × List Event :=
  match commandTokens with
  | [_, arg] => (false, opts, printHelp (some arg))
  | _ => (false, opts, printHelp none)

/-- The command dispatch of `executeCommand`, applied to the token
list.  Returns the terminate flag, the disassembler option mask after
the command, and the ordered events.  `opts` is the disassembler's
option mask when the command starts.  The trailing
`Event.write OutStream.os "\n"` in the fall-through branches is the
single `os << "\n"` at the end of `executeCommand`; branches that
`return` early do not reach it. -/
def execTokens (eng : Engine) (opts : Nat) (commandTokens : List String) :
    Bool × Nat × List Event :=
  match commandTokens with
  | [] => (false, opts, [])
  | command :: _ =>
    match command with
    | "function" | "fun" => functionCmd opts command commandTokens
    | "instruction" | "inst" => instructionCmd opts command commandTokens
    | "disassemble" | "dis" => disassembleCmd eng opts command commandTokens
    | "string" | "str" => stringCmd opts command commandTokens
    | "filename" => filenameCmd opts command commandTokens
    | "function-info" => functionInfoCmd opts command commandTokens
    | "io" =>
      (false, opts, [Event.engine EngineCall.dumpIo, Event.write OutStream.os "\n"])
    | "summary" | "sum" =>
      (false, opts, [Event.engine EngineCall.dumpSummary, Event.write OutStream.os "\n"])
    | "block" =>
      (false, opts,
        [Event.engine EngineCall.dumpBasicBlockStats, Event.write OutStream.os "\n"])
    | "at_virtual" | "at-virtual" => atVirtualCmd eng opts command commandTokens
    | "epilogue" | "epi" =>
      (false, opts, [Event.engine EngineCall.dumpEpilogue, Event.write OutStream.os "\n"])
    | "help" | "h" => helpCmd opts commandTokens
    | "quit" => (true, opts, [])
    | _ => (false, opts, printHelp (some command))

/-- `executeCommand`: tokenize the input line and dispatch.  An empty
token sequence is ignored. -/
def executeCommand (eng : Engine) (opts : Nat) (commandWithOptions : String) :
    Bool × Nat × List Event :=
  execTokens eng opts (tokenize commandWithOptions)

/-- The command names `executeCommand` dispatches on (canonical names
and aliases); any other first token falls to the final `printHelp`
branch. -/
def isKnownCommand (c : String) : Bool :=
  c == "function" || c == "fun" || c == "instruction" || c == "inst" ||
  c == "disassemble" || c == "dis" || c == "string" || c == "str" ||
  c == "filename" || c == "function-info" || c == "io" || c == "summary" ||
  c == "sum" || c == "block" || c == "at_virtual" || c == "at-virtual" ||
  c == "epilogue" || c == "epi" || c == "help" || c == "h" || c == "quit"

/-- The startup-command phase of `enterCommandLoop`: every command in
the list is executed in order; the terminate flag is the OR of the
per-command flags (the C++ loop sets `terminateLoop = true` but does
not break). -/
def runStartup (eng : Engine) : Nat → List String → Bool × Nat × List Event
  | opts, [] => (false, opts, [])
  | opts, c :: rest =>
    ((executeCommand eng opts c).1 ||
        (runStartup eng (executeCommand eng opts c).2.1 rest).1,
      (runStartup eng (executeCommand eng opts c).2.1 rest).2.1,
      (executeCommand eng opts c).2.2 ++
        (runStartup eng (executeCommand eng opts c).2.1 rest).2.2)

/-- The interactive phase of `enterCommandLoop`: print the prompt, read
a line, dispatch it, and repeat until a command signals terminate or
the input is exhausted (the final failed read still comes after one
printed prompt). -/
def interactiveLoop (eng : Engine) : Nat → List String → List Event
  | _, [] => [Event.write OutStream.os "hbcdump> "]
  | opts, line :: rest =>
    Event.write OutStream.os "hbcdump> " ::
      ((executeCommand eng opts line).2.2 ++
        (if (executeCommand eng opts line).1 then []
         else interactiveLoop eng (executeCommand eng opts line).2.1 rest))

/-- `enterCommandLoop`: set the base option mask, run the startup
commands, and enter the interactive loop unless a startup command
signalled terminate.  `input` is the sequence of lines standard input
will deliver. -/
def enterCommandLoop (eng : Engine) (fmt : DisassemblyFormat)
    (startupCommands : List String) (input : List String) : List Event :=
  (runStartup eng (baseOptions fmt) startupCommands).2.2 ++
    (if (runStartup eng (baseOptions fmt) startupCommands).1 then []
     else interactiveLoop eng (runStartup eng (baseOptions fmt) startupCommands).2.1 input)

/-- The number of trailing-blank-line writes in an event list. -/
def blankCount (events : List Event) : Nat :=
  events.count (Event.write OutStream.os "\n")

/-- A sample engine used by the concrete witnesses: 3 functions, and
only virtual offset 150 falls inside a function (function 2). -/
def engA : Engine :=
  { functionCount := 3,
    functionFromVirtualOffset := fun v => if v = 150 then some 2 else none }

/-! ## Helper lemmas -/

theorem findAndRemoveOne_of_not_mem (l : List String) (needle : String) (h : needle ∉ l) :
    findAndRemoveOne l needle = (false, l) := by
  induction l with
  | nil => rfl
  | cons x xs ih =>
    simp only [List.mem_cons, not_or] at h
    simp [findAndRemoveOne, Ne.symm h.1, ih h.2]

theorem findAndRemoveOne_fst_of_mem (l : List String) (needle : String) (h : needle ∈ l) :
    (findAndRemoveOne l needle).1 = true := by
  induction l with
  | nil => cases h
  | cons x xs ih =>
    by_cases hx : x = needle
    · simp [findAndRemoveOne, hx]
    · rcases List.mem_cons.mp h with h1 | h2
      · exact absurd h1.symm hx
      · simp [findAndRemoveOne, hx, ih h2]

theorem functionCmd_options (opts : Nat) (command : String) (ts : List String) :
    (functionCmd opts command ts).2.1 = opts := by
  unfold functionCmd
  repeat' split
  all_goals rfl

theorem instructionCmd_options (opts : Nat) (command : String) (ts : List String) :
    (instructionCmd opts command ts).2.1 = opts := by
  unfold instructionCmd
  repeat' split
  all_goals rfl

theorem disassembleCmd_options (eng : Engine) (opts : Nat) (command : String)
    (ts : List String) : (disassembleCmd eng opts command ts).2.1 = opts := by
  unfold disassembleCmd
  repeat' split
  all_goals rfl

theorem stringCmd_options (opts : Nat) (command : String) (ts : List String) :
    (stringCmd opts command ts).2.1 = opts := by
  unfold stringCmd
  repeat' split
  all_goals rfl

theorem filenameCmd_options (opts : Nat) (command : String) (ts : List String) :
    (filenameCmd opts command ts).2.1 = opts := by
  unfold filenameCmd
  repeat' split
  all_goals rfl

theorem functionInfoCmd_options (opts : Nat) (command : String) (ts : List String) :
    (functionInfoCmd opts command ts).2.1 = opts := by
  unfold functionInfoCmd
  repeat' split
  all_goals rfl

theorem atVirtualCmd_options (eng : Engine) (opts : Nat) (command : String)
    (ts : List String) : (atVirtualCmd eng opts command ts).2.1 = opts := by
  unfold atVirtualCmd
  repeat' split
  all_goals rfl

theorem helpCmd_options (opts : Nat) (ts : List String) :
    (helpCmd opts ts).2.1 = opts := by
  unfold helpCmd
  repeat' split
  all_goals rfl

theorem execTokens_options (eng : Engine) (opts : Nat) (ts : List String) :
    (execTokens eng opts ts).2.1 = opts := by
  unfold execTokens
  repeat' split
  all_goals
    first
      | rfl
      | apply functionCmd_options
      | apply instructionCmd_options
      | apply disassembleCmd_options
      | apply stringCmd_options
      | apply filenameCmd_options
      | apply functionInfoCmd_options
      | apply atVirtualCmd_options
      | apply helpCmd_options

theorem functionCmd_fst (opts : Nat) (command : String) (ts : List String) :
    (functionCmd opts command ts).1 = false := by
  unfold functionCmd
  repeat' split
  all_goals rfl

theorem instructionCmd_fst (opts : Nat) (command : String) (ts : List String) :
    (instructionCmd opts command ts).1 = false := by
  unfold instructionCmd
  repeat' split
  all_goals rfl

theorem disassembleCmd_fst (eng : Engine) (opts : Nat) (command : String)
    (ts : List String) : (disassembleCmd eng opts command ts).1 = false := by
  unfold disassembleCmd
  repeat' split
  all_goals rfl

theorem stringCmd_fst (opts : Nat) (command : String) (ts : List String) :
    (stringCmd opts command ts).1 = false := by
  unfold stringCmd
  repeat' split
  all_goals rfl

theorem filenameCmd_fst (opts : Nat) (command : String) (ts : List String) :
    (filenameCmd opts command ts).1 = false := by
  unfold filenameCmd
  repeat' split
  all_goals rfl

theorem functionInfoCmd_fst (opts : Nat) (command : String) (ts : List String) :
    (functionInfoCmd opts command ts).1 = false := by
  unfold functionInfoCmd
  repeat' split
  all_goals rfl

theorem atVirtualCmd_fst (eng : Engine) (opts : Nat) (command : String)
    (ts : List String) : (atVirtualCmd eng opts command ts).1 = false := by
  unfold atVirtualCmd
  repeat' split
  all_goals rfl

theorem helpCmd_fst (opts : Nat) (ts : List String) : (helpCmd opts ts).1 = false := by
  unfold helpCmd
  repeat' split
  all_goals rfl

theorem execTokens_not_quit (eng : Engine) (opts : Nat) (c : String) (rest : List String)
    (hc : c ≠ "quit") : (execTokens eng opts (c :: rest)).1 = false := by
  simp only [execTokens]
  repeat' split
  all_goals
    first
      | rfl
      | exact absurd rfl hc
      | exact absurd (by assumption) hc
      | apply functionCmd_fst
      | apply instructionCmd_fst
      | apply disassembleCmd_fst
      | apply stringCmd_fst
      | apply filenameCmd_fst
      | apply functionInfoCmd_fst
      | apply atVirtualCmd_fst
      | apply helpCmd_fst

theorem find_help_none (c : String) (h : isKnownCommand c = false) :
    commandToHelpText.find? (fun p => p.1 == c) = none := by
  simp only [isKnownCommand, Bool.or_eq_false_iff, beq_eq_false_iff_ne] at h
  obtain ⟨⟨⟨⟨⟨⟨⟨⟨⟨⟨⟨⟨⟨⟨⟨⟨⟨⟨⟨⟨h1, h2⟩, h3⟩, h4⟩, h5⟩, h6⟩, h7⟩, h8⟩, h9⟩, h10⟩, h11⟩,
      h12⟩, h13⟩, h14⟩, h15⟩, h16⟩, h17⟩, h18⟩, h19⟩, h20⟩, h21⟩ := h
  have e : ∀ s : String, c ≠ s → (s == c) = false :=
    fun s hs => beq_eq_false_iff_ne.mpr (Ne.symm hs)
  simp [commandToHelpText, List.find?, e _ h1, e _ h3, e _ h5, e _ h7, e _ h9,
    e _ h10, e _ h11, e _ h12, e _ h14, e _ h16, e _ h17, e _ h19]

theorem printHelp_only_stdout (copt : Option String) (strm : OutStream) (t : String)
    (hmem : Event.write strm t ∈ printHelp copt) : strm = OutStream.stdout := by
  have hall : ∀ u : String, Event.write strm u ∈ printHelpAll → strm = OutStream.stdout := by
    intro u hu
    simp only [printHelpAll, commandToHelpText, List.map, List.mem_cons,
      List.not_mem_nil, or_false] at hu
    rcases hu with h | h | h | h | h | h | h | h | h | h | h | h | h <;>
      exact ((Event.write.injEq _ _ _ _).mp h).1
  rcases copt with _ | c
  · simp only [printHelp] at hmem
    exact hall t hmem
  · simp only [printHelp] at hmem
    by_cases hc : c = ""
    · rw [if_pos hc] at hmem
      exact hall t hmem
    · rw [if_neg hc] at hmem
      rcases hfind : commandToHelpText.find? (fun p => p.1 == c) with _ | p <;>
          rw [hfind] at hmem <;>
          simp only [List.mem_cons, List.not_mem_nil, or_false] at hmem <;>
        exact ((Event.write.injEq _ _ _ _).mp hmem).1

theorem blankCount_printHelp (copt : Option String) : blankCount (printHelp copt) = 0 := by
  unfold blankCount
  rw [List.count_eq_zero]
  intro hmem
  have := printHelp_only_stdout copt OutStream.os "\n" hmem
  cases this

/-! ## Claim theorems -/

/-- C1: For every input line dispatched through `executeCommand`, the
disassembler option mask after the command returns equals the mask in
force before the command ran — including validation failures and early
returns — because the scoped override of the `disassemble` command is
restored on every exit path. -/
theorem options_mask_invariant (eng : Engine) (opts : Nat) (line : String) :
    (executeCommand eng opts line).2.1 = opts :=
  execTokens_options eng opts (tokenize line)

/-- C2 (counterexample): in the startup list `["quit", "summary"]` the
first command signals terminate, yet `summary` is still dispatched (its
engine call and trailing blank line appear in the session's events), so
a terminating startup command does not stop the remaining startup
commands. -/
theorem startup_list_counterexample :
    (executeCommand engA (baseOptions DisassemblyFormat.Pretty) "quit").1 = true ∧
      enterCommandLoop engA DisassemblyFormat.Pretty ["quit", "summary"] [] =
        [Event.engine EngineCall.dumpSummary, Event.write OutStream.os "\n"] :=
  ⟨rfl, rfl⟩

/-- C2 (amended): every startup command is executed in order even after
one of them signals terminate — the events of a startup list always
start with the first command's events followed by the rest — and a
terminate signal from the startup phase only suppresses the interactive
prompt loop: the session's events are then exactly the startup events,
whatever input would have followed. -/
theorem startup_terminate_skips_prompt (eng : Engine) (fmt : DisassemblyFormat)
    (cmds input : List String) :
    ((runStartup eng (baseOptions fmt) cmds).1 = true →
        enterCommandLoop eng fmt cmds input = (runStartup eng (baseOptions fmt) cmds).2.2)
    ∧ ∀ (opts : Nat) (c : String) (cs : List String),
        (runStartup eng opts (c :: cs)).2.2 =
          (executeCommand eng opts c).2.2 ++
            (runStartup eng (executeCommand eng opts c).2.1 cs).2.2 := by
  constructor
  · intro h
    unfold enterCommandLoop
    rw [h]
    simp
  · intro opts c cs
    rfl

theorem startup_terminate_skips_prompt_witness :
    (runStartup engA (baseOptions DisassemblyFormat.Pretty) ["quit"]).1 = true ∧
      enterCommandLoop engA DisassemblyFormat.Pretty ["quit"] ["io"] =
        (runStartup engA (baseOptions DisassemblyFormat.Pretty) ["quit"]).2.2 :=
  ⟨rfl,
    (startup_terminate_skips_prompt engA DisassemblyFormat.Pretty ["quit"] ["io"]).1 rfl⟩

/-- C3: dispatching the empty input line is a no-op: `executeCommand`
returns the do-not-terminate result, leaves the option mask unchanged,
and writes nothing. -/
theorem empty_line_noop (eng : Engine) (opts : Nat) :
    executeCommand eng opts "" = (false, opts, []) := rfl

/-- C10: every line whose first token is exactly `quit` — regardless of
any further tokens — makes `executeCommand` return the terminate signal
with no writes at all, and every line whose first token is not `quit`
returns do-not-terminate. -/
theorem quit_terminates (eng : Engine) (opts : Nat) (line : String) :
    (∀ args : List String, tokenize line = "quit" :: args →
        executeCommand eng opts line = (true, opts, []))
    ∧ ∀ (c : String) (args : List String), tokenize line = c :: args → c ≠ "quit" →
        (executeCommand eng opts line).1 = false := by
  constructor
  · intro args h
    unfold executeCommand
    rw [h]
    rfl
  · intro c args h hc
    unfold executeCommand
    rw [h]
    exact execTokens_not_quit eng opts c args hc

theorem quit_terminates_witness :
    tokenize "quit now" = ["quit", "now"] ∧
      executeCommand engA 5 "quit now" = (true, 5, []) :=
  ⟨rfl, (quit_terminates engA 5 "quit now").1 ["now"] rfl⟩

/-- C5: for every numeric-argument command (`function <id>`,
`disassemble <id>`, `string <id>`, `filename <id>`,
`function-info <id>`, `at-virtual <offset>`), an argument that fails to
parse as a non-negative integer in its given radix makes the command
write its distinct "cannot parse ... as integer" diagnostic to the
session stream and abort with do-not-terminate, with no usage text and
no engine call.  (For `function` and `disassemble` the argument must
not be the command's own flag token, which would be extracted before
parsing.) -/
theorem parse_error_distinct_message (eng : Engine) (opts : Nat) (line s : String)
    (hp : parseU32 s = none) :
    (tokenize line = ["function", s] → s ≠ "-used" →
        executeCommand eng opts line =
          (false, opts, [Event.write OutStream.os "Error: cannot parse func_id as integer.\n"]))
    ∧ (tokenize line = ["disassemble", s] → s ≠ "-offsets" →
        executeCommand eng opts line =
          (false, opts, [Event.write OutStream.os "Error: cannot parse func_id as integer.\n"]))
    ∧ (tokenize line = ["string", s] →
        executeCommand eng opts line =
          (false, opts, [Event.write OutStream.os "Error: cannot parse string_id as integer.\n"]))
    ∧ (tokenize line = ["filename", s] →
        executeCommand eng opts line =
          (false, opts, [Event.write OutStream.os "Error: cannot parse filename_id as integer.\n"]))
    ∧ (tokenize line = ["function-info", s] →
        executeCommand eng opts line =
          (false, opts, [Event.write OutStream.os "Error: cannot parse func_id as integer.\n"]))
    ∧ (tokenize line = ["at-virtual", s] →
        executeCommand eng opts line =
          (false, opts,
            [Event.write OutStream.os "Error: cannot parse virtualOffset as integer.\n"])) := by
  refine ⟨?_, ?_, ?_, ?_, ?_, ?_⟩
  · intro h hne
    unfold executeCommand
    rw [h]
    show functionCmd opts "function" ["function", s] = _
    simp [functionCmd, findAndRemoveOne, hne, hp]
  · intro h hne
    unfold executeCommand
    rw [h]
    show disassembleCmd eng opts "disassemble" ["disassemble", s] = _
    simp [disassembleCmd, findAndRemoveOne, hne, hp]
  · intro h
    unfold executeCommand
    rw [h]
    show stringCmd opts "string" ["string", s] = _
    simp [stringCmd, hp]
  · intro h
    unfold executeCommand
    rw [h]
    show filenameCmd opts "filename" ["filename", s] = _
    simp [filenameCmd, hp]
  · intro h
    unfold executeCommand
    rw [h]
    show functionInfoCmd opts "function-info" ["function-info", s] = _
    simp [functionInfoCmd, hp]
  · intro h
    unfold executeCommand
    rw [h]
    show atVirtualCmd eng opts "at-virtual" ["at-virtual", s] = _
    simp [atVirtualCmd, hp]

theorem parse_error_distinct_message_witness :
    parseU32 "abc" = none ∧ tokenize "string abc" = ["string", "abc"] ∧
      executeCommand engA 9 "string abc" =
        (false, 9, [Event.write OutStream.os "Error: cannot parse string_id as integer.\n"]) :=
  ⟨rfl, rfl, (parse_error_distinct_message engA 9 "string abc" "abc" rfl).2.2.1 rfl⟩

/-- C6: `disassemble f` with a parsed function id `f` at or above the
disassembler's function count writes exactly the out-of-range error
naming `f` to the session stream and returns do-not-terminate with no
disassembly; with `f` strictly below the count it invokes the
single-function disassembly (followed by the trailing blank line). -/
theorem disassemble_range_check (eng : Engine) (opts : Nat) (line s : String) (f : Nat)
    (h : tokenize line = ["disassemble", s]) (hp : parseU32 s = some f) :
    (eng.functionCount ≤ f →
        executeCommand eng opts line =
          (false, opts,
            [Event.write OutStream.os
              ("Error: no function with id: " ++ toString f ++ " exists.\n")]))
    ∧ (f < eng.functionCount →
        executeCommand eng opts line =
          (false, opts,
            [Event.engine
              (EngineCall.disassembleFunction (opts ||| DisassemblyOptions.None) f),
             Event.write OutStream.os "\n"])) := by
  have hs : s ≠ "-offsets" := by
    intro hs
    rw [hs] at hp
    exact Option.noConfusion hp
  constructor
  · intro hge
    unfold executeCommand
    rw [h]
    show disassembleCmd eng opts "disassemble" ["disassemble", s] = _
    simp [disassembleCmd, findAndRemoveOne, hs, hp, hge]
  · intro hlt
    unfold executeCommand
    rw [h]
    show disassembleCmd eng opts "disassemble" ["disassemble", s] = _
    simp [disassembleCmd, findAndRemoveOne, hs, hp, Nat.not_le.mpr hlt]

theorem disassemble_range_check_witness :
    tokenize "disassemble 7" = ["disassemble", "7"] ∧ parseU32 "7" = some 7 ∧
      engA.functionCount ≤ 7 ∧
      executeCommand engA 11 "disassemble 7" =
        (false, 11, [Event.write OutStream.os "Error: no function with id: 7 exists.\n"]) :=
  ⟨rfl, rfl, by decide,
    (disassemble_range_check engA 11 "disassemble 7" "7" 7 rfl rfl).1 (by decide)⟩

/-- C7: `at-virtual v` (and the `at_virtual` spelling) with a virtual
offset `v` that does not resolve to a containing function writes
exactly the invalid-offset message naming `v` (followed by the trailing
blank line) and never invokes the structured-metadata renderer; when
`v` resolves to a function id, that function's metadata renderer is
invoked. -/
theorem at_virtual_offset_resolution (eng : Engine) (opts : Nat) (line c s : String)
    (v : Nat) (hc : c = "at-virtual" ∨ c = "at_virtual")
    (h : tokenize line = [c, s]) (hp : parseU32 s = some v) :
    (eng.functionFromVirtualOffset v = none →
        executeCommand eng opts line =
          (false, opts,
            [Event.write OutStream.os
              ("Virtual offset " ++ toString v ++ " is invalid.\n"),
             Event.write OutStream.os "\n"]))
    ∧ ∀ fid : Nat, eng.functionFromVirtualOffset v = some fid →
        executeCommand eng opts line =
          (false, opts,
            [Event.engine (EngineCall.dumpFunctionInfo fid),
             Event.write OutStream.os "\n"]) := by
  constructor
  · intro hres
    unfold executeCommand
    rw [h]
    rcases hc with rfl | rfl
    · show atVirtualCmd eng opts "at-virtual" ["at-virtual", s] = _
      simp [atVirtualCmd, hp, hres]
    · show atVirtualCmd eng opts "at_virtual" ["at_virtual", s] = _
      simp [atVirtualCmd, hp, hres]
  · intro fid hres
    unfold executeCommand
    rw [h]
    rcases hc with rfl | rfl
    · show atVirtualCmd eng opts "at-virtual" ["at-virtual", s] = _
      simp [atVirtualCmd, hp, hres]
    · show atVirtualCmd eng opts "at_virtual" ["at_virtual", s] = _
      simp [atVirtualCmd, hp, hres]

theorem at_virtual_offset_resolution_witness :
    engA.functionFromVirtualOffset 0 = none ∧ parseU32 "0" = some 0 ∧
      executeCommand engA 13 "at-virtual 0" =
        (false, 13,
          [Event.write OutStream.os "Virtual offset 0 is invalid.\n",
           Event.write OutStream.os "\n"]) :=
  ⟨rfl, rfl,
    (at_virtual_offset_resolution engA 13 "at-virtual 0" "at-virtual" "0" 0
      (Or.inl rfl) rfl rfl).1 rfl⟩

/-- C9 (counterexample): when the `-used` flag is present, no arity
check happens at all.  `function -used` (1 remaining token after
stripping) renders the used-IDs listing, not the summary mode the claim
prescribes; `function -used 1 2 3` (4 remaining tokens after stripping)
also renders the used-IDs listing instead of the usage text the claim
prescribes for "any other count". -/
theorem function_used_flag_counterexample :
    executeCommand engA 3 "function -used" =
      (false, 3,
        [Event.engine EngineCall.dumpUsedFunctionIDs, Event.write OutStream.os "\n"])
    ∧ executeCommand engA 3 "function -used 1 2 3" =
      (false, 3,
        [Event.engine EngineCall.dumpUsedFunctionIDs, Event.write OutStream.os "\n"]) :=
  ⟨rfl, rfl⟩

/-- C9 (amended): for the `function` command, a `-used` flag located
anywhere in the token sequence is stripped (at most one occurrence
consumed), and when it was found the used-function-IDs listing is
rendered with no arity check on the remaining tokens; only when no
`-used` flag is present are the tokens validated against the arity
contract (1 token = summary mode, 2 = single function id lookup — a
parse failure gives the parse diagnostic — any other count = usage
text). -/
theorem function_used_flag_dispatch (eng : Engine) (opts : Nat) (line s : String)
    (f : Nat) :
    (∀ args : List String, tokenize line = "function" :: args → "-used" ∈ args →
        executeCommand eng opts line =
          (false, opts,
            [Event.engine EngineCall.dumpUsedFunctionIDs, Event.write OutStream.os "\n"]))
    ∧ (tokenize line = ["function"] →
        executeCommand eng opts line =
          (false, opts,
            [Event.engine EngineCall.dumpFunctionStats, Event.write OutStream.os "\n"]))
    ∧ (tokenize line = ["function", s] → s ≠ "-used" → parseU32 s = some f →
        executeCommand eng opts line =
          (false, opts,
            [Event.engine (EngineCall.dumpFunctionBasicBlockStat f),
             Event.write OutStream.os "\n"]))
    ∧ (tokenize line = ["function", s] → s ≠ "-used" → parseU32 s = none →
        executeCommand eng opts line =
          (false, opts,
            [Event.write OutStream.os "Error: cannot parse func_id as integer.\n"]))
    ∧ ∀ (a b : String) (args : List String),
        tokenize line = "function" :: a :: b :: args → "-used" ∉ a :: b :: args →
          executeCommand eng opts line = (false, opts, printHelp (some "function")) := by
  refine ⟨?_, ?_, ?_, ?_, ?_⟩
  · intro args h hmem
    unfold executeCommand
    rw [h]
    show functionCmd opts "function" ("function" :: args) = _
    have hfr : (findAndRemoveOne ("function" :: args) "-used").1 = true :=
      findAndRemoveOne_fst_of_mem _ _ (List.mem_cons_of_mem _ hmem)
    simp [functionCmd, hfr]
  · intro h
    unfold executeCommand
    rw [h]
    rfl
  · intro h hne hp
    unfold executeCommand
    rw [h]
    show functionCmd opts "function" ["function", s] = _
    simp [functionCmd, findAndRemoveOne, hne, hp]
  · intro h hne hp
    unfold executeCommand
    rw [h]
    show functionCmd opts "function" ["function", s] = _
    simp [functionCmd, findAndRemoveOne, hne, hp]
  · intro a b args h hmem
    unfold executeCommand
    rw [h]
    show functionCmd opts "function" ("function" :: a :: b :: args) = _
    have hnm : "-used" ∉ "function" :: a :: b :: args := by
      intro hx
      rcases List.mem_cons.mp hx with h1 | h2
      · exact absurd h1 (by decide)
      · exact hmem h2
    simp [functionCmd, findAndRemoveOne_of_not_mem _ _ hnm]

theorem function_used_flag_dispatch_witness :
    tokenize "function -used 9" = ["function", "-used", "9"] ∧
      "-used" ∈ ["-used", "9"] ∧
      executeCommand engA 4 "function -used 9" =
        (false, 4,
          [Event.engine EngineCall.dumpUsedFunctionIDs, Event.write OutStream.os "\n"]) :=
  ⟨rfl, by decide,
    (function_used_flag_dispatch engA 4 "function -used 9" "x" 0).1 ["-used", "9"] rfl
      (by decide)⟩

/-- C4 (counterexample): the unknown-command diagnostic is rendered by
`printHelp`, which writes to `llvh::outs()` (the process standard
output), not to the session's active output stream `os` that
`executeCommand` received — the two are distinct channels (they only
coincide when `--out` is absent). -/
theorem error_stream_counterexample :
    executeCommand engA 0 "frobnicate" =
      (false, 0, [Event.write OutStream.stdout "Invalid command: frobnicate\n"])
    ∧ OutStream.stdout ≠ OutStream.os :=
  ⟨rfl, by decide⟩

/-- C4 (amended): every command-local recoverable error returns
do-not-terminate, and none of them writes to the error stream; the
non-integer-argument, out-of-range-function-id and
invalid-virtual-offset diagnostics go to the session's active output
stream, while the unknown-command and wrong-argument-count diagnostics
are rendered by the help printer, which writes only to the process
standard output (coinciding with the session stream only when output
is not redirected). -/
theorem recoverable_error_streams (eng : Engine) (opts : Nat) (line c s a b : String)
    (args : List String) (f v : Nat) :
    (tokenize line = c :: args → isKnownCommand c = false → c ≠ "" →
        executeCommand eng opts line =
          (false, opts,
            [Event.write OutStream.stdout ("Invalid command: " ++ c ++ "\n")]))
    ∧ (tokenize line = "function" :: a :: b :: args → "-used" ∉ a :: b :: args →
        executeCommand eng opts line = (false, opts, printHelp (some "function")))
    ∧ (tokenize line = "instruction" :: a :: args →
        executeCommand eng opts line = (false, opts, printHelp (some "instruction")))
    ∧ (tokenize line = "disassemble" :: a :: b :: args → "-offsets" ∉ a :: b :: args →
        executeCommand eng opts line = (false, opts, printHelp (some "disassemble")))
    ∧ (tokenize line = ["string"] →
        executeCommand eng opts line = (false, opts, printHelp (some "string")))
    ∧ (tokenize line = "string" :: a :: b :: args →
        executeCommand eng opts line = (false, opts, printHelp (some "string")))
    ∧ (tokenize line = ["filename"] →
        executeCommand eng opts line = (false, opts, printHelp (some "filename")))
    ∧ (tokenize line = "filename" :: a :: b :: args →
        executeCommand eng opts line = (false, opts, printHelp (some "filename")))
    ∧ (tokenize line = "function-info" :: a :: b :: args →
        executeCommand eng opts line = (false, opts, printHelp (some "function-info")))
    ∧ (tokenize line = ["at-virtual"] →
        executeCommand eng opts line = (false, opts, printHelp (some "at-virtual")))
    ∧ (tokenize line = "at-virtual" :: a :: b :: args →
        executeCommand eng opts line = (false, opts, printHelp (some "at-virtual")))
    ∧ (tokenize line = ["string", s] → parseU32 s = none →
        executeCommand eng opts line =
          (false, opts,
            [Event.write OutStream.os "Error: cannot parse string_id as integer.\n"]))
    ∧ (tokenize line = ["disassemble", s] → parseU32 s = some f →
        eng.functionCount ≤ f →
        executeCommand eng opts line =
          (false, opts,
            [Event.write OutStream.os
              ("Error: no function with id: " ++ toString f ++ " exists.\n")]))
    ∧ (tokenize line = ["at-virtual", s] → parseU32 s = some v →
        eng.functionFromVirtualOffset v = none →
        executeCommand eng opts line =
          (false, opts,
            [Event.write OutStream.os
              ("Virtual offset " ++ toString v ++ " is invalid.\n"),
             Event.write OutStream.os "\n"]))
    ∧ ∀ (copt : Option String) (strm : OutStream) (t : String),
        Event.write strm t ∈ printHelp copt → strm = OutStream.stdout := by
  refine ⟨?_, ?_, ?_, ?_, ?_, ?_, ?_, ?_, ?_, ?_, ?_, ?_, ?_, ?_, ?_⟩
  · intro h hk hne
    unfold executeCommand
    rw [h]
    simp only [execTokens]
    repeat' split
    all_goals
      first
        | exact absurd hk (by decide)
        | simp [printHelp, hne, find_help_none _ hk]
  · intro h hmem
    unfold executeCommand
    rw [h]
    show functionCmd opts "function" ("function" :: a :: b :: args) = _
    have hnm : "-used" ∉ "function" :: a :: b :: args := by
      intro hx
      rcases List.mem_cons.mp hx with h1 | h2
      · exact absurd h1 (by decide)
      · exact hmem h2
    simp [functionCmd, findAndRemoveOne_of_not_mem _ _ hnm]
  · intro h
    unfold executeCommand
    rw [h]
    rfl
  · intro h hmem
    unfold executeCommand
    rw [h]
    show disassembleCmd eng opts "disassemble" ("disassemble" :: a :: b :: args) = _
    have hnm : "-offsets" ∉ "disassemble" :: a :: b :: args := by
      intro hx
      rcases List.mem_cons.mp hx with h1 | h2
      · exact absurd h1 (by decide)
      · exact hmem h2
    simp [disassembleCmd, findAndRemoveOne_of_not_mem _ _ hnm]
  · intro h
    unfold executeCommand
    rw [h]
    rfl
  · intro h
    unfold executeCommand
    rw [h]
    rfl
  · intro h
    unfold executeCommand
    rw [h]
    rfl
  · intro h
    unfold executeCommand
    rw [h]
    rfl
  · intro h
    unfold executeCommand
    rw [h]
    rfl
  · intro h
    unfold executeCommand
    rw [h]
    rfl
  · intro h
    unfold executeCommand
    rw [h]
    rfl
  · intro h hp
    unfold executeCommand
    rw [h]
    show stringCmd opts "string" ["string", s] = _
    simp [stringCmd, hp]
  · intro h hp hge
    have hs : s ≠ "-offsets" := by
      intro hs
      rw [hs] at hp
      exact Option.noConfusion hp
    unfold executeCommand
    rw [h]
    show disassembleCmd eng opts "disassemble" ["disassemble", s] = _
    simp [disassembleCmd, findAndRemoveOne, hs, hp, hge]
  · intro h hp hres
    unfold executeCommand
    rw [h]
    show atVirtualCmd eng opts "at-virtual" ["at-virtual", s] = _
    simp [atVirtualCmd, hp, hres]
  · exact printHelp_only_stdout

theorem recoverable_error_streams_witness :
    tokenize "mystery" = ["mystery"] ∧ isKnownCommand "mystery" = false ∧
      executeCommand engA 2 "mystery" =
        (false, 2, [Event.write OutStream.stdout "Invalid command: mystery\n"]) :=
  ⟨rfl, rfl,
    (recoverable_error_streams engA 2 "mystery" "mystery" "" "" "" [] 0 0).1 rfl rfl
      (by decide)⟩

/-- C8 (counterexample): `help` is a successfully dispatched command
yet emits no trailing blank line on the session stream (it returns
before the trailing write and all its output goes to the help
printer), and the `at-virtual` invalid-offset error diagnostic IS
followed by the trailing blank line (that branch does not return
early). -/
theorem trailing_blank_counterexample :
    executeCommand engA 0 "help" = (false, 0, printHelpAll)
    ∧ Event.write OutStream.os "\n" ∉ printHelpAll
    ∧ executeCommand engA 0 "at-virtual 1" =
      (false, 0,
        [Event.write OutStream.os "Virtual offset 1 is invalid.\n",
         Event.write OutStream.os "\n"]) :=
  ⟨rfl, by decide, rfl⟩

/-- C8 (amended): every successfully dispatched engine command —
startup or interactive, since both go through `executeCommand` —
appends exactly one trailing blank line to the session stream after
its output; commands that fail validation and render usage text or a
parse/range error diagnostic emit no trailing blank line, with two
exceptions forced by the code: the `help` and `quit` commands emit no
trailing blank line even on success, and the `at-virtual`
invalid-offset diagnostic is followed by the trailing blank line. -/
theorem trailing_blank_line_behavior (eng : Engine) (opts : Nat) (line s : String)
    (f v fid : Nat) :
    (tokenize line = ["instruction"] →
        executeCommand eng opts line =
          (false, opts,
            [Event.engine EngineCall.dumpInstructionStats, Event.write OutStream.os "\n"]))
    ∧ (∀ (c2 : String) (args : List String), tokenize line = c2 :: args →
        (c2 = "io" ∨ c2 = "summary" ∨ c2 = "sum" ∨ c2 = "block" ∨ c2 = "epilogue" ∨
          c2 = "epi") →
        ∃ e : EngineCall, executeCommand eng opts line =
          (false, opts, [Event.engine e, Event.write OutStream.os "\n"]))
    ∧ (tokenize line = ["function"] →
        executeCommand eng opts line =
          (false, opts,
            [Event.engine EngineCall.dumpFunctionStats, Event.write OutStream.os "\n"]))
    ∧ (tokenize line = ["function", s] → s ≠ "-used" → parseU32 s = some f →
        executeCommand eng opts line =
          (false, opts,
            [Event.engine (EngineCall.dumpFunctionBasicBlockStat f),
             Event.write OutStream.os "\n"]))
    ∧ (∀ args : List String, tokenize line = "function" :: args → "-used" ∈ args →
        executeCommand eng opts line =
          (false, opts,
            [Event.engine EngineCall.dumpUsedFunctionIDs, Event.write OutStream.os "\n"]))
    ∧ (tokenize line = ["disassemble"] →
        executeCommand eng opts line =
          (false, opts,
            [Event.engine (EngineCall.disassemble (opts ||| DisassemblyOptions.None)),
             Event.write OutStream.os "\n"]))
    ∧ (tokenize line = ["disassemble", s] → parseU32 s = some f →
        f < eng.functionCount →
        executeCommand eng opts line =
          (false, opts,
            [Event.engine
              (EngineCall.disassembleFunction (opts ||| DisassemblyOptions.None) f),
             Event.write OutStream.os "\n"]))
    ∧ (tokenize line = ["string", s] → parseU32 s = some f →
        executeCommand eng opts line =
          (false, opts,
            [Event.engine (EngineCall.dumpString f), Event.write OutStream.os "\n"]))
    ∧ (tokenize line = ["filename", s] → parseU32 s = some f →
        executeCommand eng opts line =
          (false, opts,
            [Event.engine (EngineCall.dumpFileName f), Event.write OutStream.os "\n"]))
    ∧ (tokenize line = ["function-info"] →
        executeCommand eng opts line =
          (false, opts,
            [Event.engine EngineCall.dumpAllFunctionInfo, Event.write OutStream.os "\n"]))
    ∧ (tokenize line = ["function-info", s] → parseU32 s = some f →
        executeCommand eng opts line =
          (false, opts,
            [Event.engine (EngineCall.dumpFunctionInfo f), Event.write OutStream.os "\n"]))
    ∧ (tokenize line = ["at-virtual", s] → parseU32 s = some v →
        eng.functionFromVirtualOffset v = some fid →
        executeCommand eng opts line =
          (false, opts,
            [Event.engine (EngineCall.dumpFunctionInfo fid), Event.write OutStream.os "\n"]))
    ∧ (tokenize line = ["at-virtual", s] → parseU32 s = some v →
        eng.functionFromVirtualOffset v = none →
        blankCount (executeCommand eng opts line).2.2 = 1)
    ∧ (∀ args : List String, tokenize line = "help" :: args →
        blankCount (executeCommand eng opts line).2.2 = 0 ∧
          (executeCommand eng opts line).1 = false)
    ∧ (∀ args : List String, tokenize line = "quit" :: args →
        executeCommand eng opts line = (true, opts, []))
    ∧ (∀ copt : Option String, blankCount (printHelp copt) = 0)
    ∧ (tokenize line = ["string", s] → parseU32 s = none →
        blankCount (executeCommand eng opts line).2.2 = 0)
    ∧ (tokenize line = ["disassemble", s] → parseU32 s = some f →
        eng.functionCount ≤ f →
        blankCount (executeCommand eng opts line).2.2 = 0) := by
  refine ⟨?_, ?_, ?_, ?_, ?_, ?_, ?_, ?_, ?_, ?_, ?_, ?_, ?_, ?_, ?_, ?_, ?_, ?_⟩
  · intro h
    unfold executeCommand
    rw [h]
    rfl
  · intro c2 args h hc
    unfold executeCommand
    rw [h]
    rcases hc with rfl | rfl | rfl | rfl | rfl | rfl
    · exact ⟨EngineCall.dumpIo, rfl⟩
    · exact ⟨EngineCall.dumpSummary, rfl⟩
    · exact ⟨EngineCall.dumpSummary, rfl⟩
    · exact ⟨EngineCall.dumpBasicBlockStats, rfl⟩
    · exact ⟨EngineCall.dumpEpilogue, rfl⟩
    · exact ⟨EngineCall.dumpEpilogue, rfl⟩
  · intro h
    unfold executeCommand
    rw [h]
    rfl
  · intro h hne hp
    unfold executeCommand
    rw [h]
    show functionCmd opts "function" ["function", s] = _
    simp [functionCmd, findAndRemoveOne, hne, hp]
  · intro args h hmem
    unfold executeCommand
    rw [h]
    show functionCmd opts "function" ("function" :: args) = _
    have hfr : (findAndRemoveOne ("function" :: args) "-used").1 = true :=
      findAndRemoveOne_fst_of_mem _ _ (List.mem_cons_of_mem _ hmem)
    simp [functionCmd, hfr]
  · intro h
    unfold executeCommand
    rw [h]
    rfl
  · intro h hp hlt
    have hs : s ≠ "-offsets" := by
      intro hs
      rw [hs] at hp
      exact Option.noConfusion hp
    unfold executeCommand
    rw [h]
    show disassembleCmd eng opts "disassemble" ["disassemble", s] = _
    simp [disassembleCmd, findAndRemoveOne, hs, hp, Nat.not_le.mpr hlt]
  · intro h hp
    unfold executeCommand
    rw [h]
    show stringCmd opts "string" ["string", s] = _
    simp [stringCmd, hp]
  · intro h hp
    unfold executeCommand
    rw [h]
    show filenameCmd opts "filename" ["filename", s] = _
    simp [filenameCmd, hp]
  · intro h
    unfold executeCommand
    rw [h]
    rfl
  · intro h hp
    unfold executeCommand
    rw [h]
    show functionInfoCmd opts "function-info" ["function-info", s] = _
    simp [functionInfoCmd, hp]
  · intro h hp hres
    unfold executeCommand
    rw [h]
    show atVirtualCmd eng opts "at-virtual" ["at-virtual", s] = _
    simp [atVirtualCmd, hp, hres]
  · intro h hp hres
    unfold executeCommand
    rw [h]
    show blankCount (atVirtualCmd eng opts "at-virtual" ["at-virtual", s]).2.2 = 1
    have hmsg : ("Virtual offset " ++ toString v ++ " is invalid.\n") ≠ "\n" := by
      intro hEq
      have hlen := congrArg String.length hEq
      simp only [String.length_append] at hlen
      rw [show ("Virtual offset " : String).length = 15 from rfl,
        show (" is invalid.\n" : String).length = 13 from rfl,
        show ("\n" : String).length = 1 from rfl] at hlen
      omega
    simp [atVirtualCmd, hp, hres, blankCount, List.count_cons, hmsg, Ne.symm hmsg]
  · intro args h
    unfold executeCommand
    rw [h]
    rcases args with _ | ⟨a1, _ | ⟨b1, rest⟩⟩
    · exact ⟨blankCount_printHelp none, rfl⟩
    · exact ⟨blankCount_printHelp (some a1), rfl⟩
    · exact ⟨blankCount_printHelp none, rfl⟩
  · intro args h
    unfold executeCommand
    rw [h]
    rfl
  · exact blankCount_printHelp
  · intro h hp
    unfold executeCommand
    rw [h]
    show blankCount (stringCmd opts "string" ["string", s]).2.2 = 0
    simp [stringCmd, hp, blankCount]
  · intro h hp hge
    have hs : s ≠ "-offsets" := by
      intro hs
      rw [hs] at hp
      exact Option.noConfusion hp
    unfold executeCommand
    rw [h]
    show blankCount (disassembleCmd eng opts "disassemble" ["disassemble", s]).2.2 = 0
    have hmsg : ("Error: no function with id: " ++ toString f ++ " exists.\n") ≠ "\n" := by
      intro hEq
      have hlen := congrArg String.length hEq
      simp only [String.length_append] at hlen
      rw [show ("Error: no function with id: " : String).length = 28 from rfl,
        show (" exists.\n" : String).length = 9 from rfl,
        show ("\n" : String).length = 1 from rfl] at hlen
      omega
    simp [disassembleCmd, findAndRemoveOne, hs, hp, hge, blankCount, List.count_cons,
      hmsg, Ne.symm hmsg]

theorem trailing_blank_line_behavior_witness :
    tokenize "instruction" = ["instruction"] ∧
      executeCommand engA 6 "instruction" =
        (false, 6,
          [Event.engine EngineCall.dumpInstructionStats, Event.write OutStream.os "\n"]) :=
  ⟨rfl, (trailing_blank_line_behavior engA 6 "instruction" "x" 0 0 0).1 rfl⟩

end HbcDump
